import Mathlib

/-!
Shallow embedding of the SI4735 "all in one" STM32 sketch
(examples/SI47XX_07_STM32/SI4735_03_STM32_ALL_IN_ONE_OLED).

The sketch is a single-threaded control loop: global receiver state,
button/encoder events dispatched by `loop()`, and calls into the SI4735
tuner chip.  We embed the receiver state as a structure, each tuner call
as a constructor of an explicit command type, and every event handler as
a pure function `RadioState → RadioState × List Cmd` returning the new
state together with the ordered trace of tuner commands (and delays)
emitted.  The display renderer `printValue` and the formatting done by
`showFrequency` are embedded as pure functions producing glyph-write
events and character lists.
-/

namespace SI4735

/-- Mode constant `FM` (source: `#define FM 0`). -/
def FM : Nat := 0

/-- Mode constant `LSB` (source: `#define LSB 1`). -/
def LSB : Nat := 1

/-- Mode constant `USB` (source: `#define USB 2`). -/
def USB : Nat := 2

/-- Mode constant `AM` (source: `#define AM 3`). -/
def AM : Nat := 3

/-- Band type `FM_BAND_TYPE` (source: `#define FM_BAND_TYPE 0`). -/
def FM_BAND_TYPE : Nat := 0

/-- Band type `MW_BAND_TYPE` (source: `#define MW_BAND_TYPE 1`). -/
def MW_BAND_TYPE : Nat := 1

/-- Band type `SW_BAND_TYPE` (source: `#define SW_BAND_TYPE 2`). -/
def SW_BAND_TYPE : Nat := 2

/-- Band type `LW_BAND_TYPE` (source: `#define LW_BAND_TYPE 3`). -/
def LW_BAND_TYPE : Nat := 3

/-- The `Band` struct of the sketch. -/
structure Band where
  bandType : Nat
  minimumFreq : Nat
  maximumFreq : Nat
  currentFreq : Nat
  currentStep : Nat
deriving DecidableEq

/-- Fallback entry used for out-of-range indexing (never reached for
reachable states, whose `bandIdx` stays within the table). -/
def defaultBand : Band := ⟨0, 0, 0, 0, 0⟩

/-- The static `band[]` table of the sketch, in order. -/
def bandTable : List Band :=
  [⟨FM_BAND_TYPE, 8400, 10800, 10570, 10⟩,
   ⟨LW_BAND_TYPE, 100, 510, 300, 1⟩,
   ⟨MW_BAND_TYPE, 520, 1720, 810, 10⟩,
   ⟨SW_BAND_TYPE, 1800, 3500, 1900, 1⟩,
   ⟨SW_BAND_TYPE, 3500, 4500, 3700, 1⟩,
   ⟨SW_BAND_TYPE, 4500, 5500, 4850, 5⟩,
   ⟨SW_BAND_TYPE, 5600, 6300, 6000, 5⟩,
   ⟨SW_BAND_TYPE, 6800, 7800, 7200, 5⟩,
   ⟨SW_BAND_TYPE, 9200, 10000, 9600, 5⟩,
   ⟨SW_BAND_TYPE, 10000, 11000, 10100, 1⟩,
   ⟨SW_BAND_TYPE, 11200, 12500, 11940, 5⟩,
   ⟨SW_BAND_TYPE, 13400, 13900, 13600, 5⟩,
   ⟨SW_BAND_TYPE, 14000, 14500, 14200, 1⟩,
   ⟨SW_BAND_TYPE, 15000, 15900, 15300, 5⟩,
   ⟨SW_BAND_TYPE, 17200, 17900, 17600, 5⟩,
   ⟨SW_BAND_TYPE, 18000, 18300, 18100, 1⟩,
   ⟨SW_BAND_TYPE, 21000, 21900, 21200, 1⟩,
   ⟨SW_BAND_TYPE, 24890, 26200, 24940, 1⟩,
   ⟨SW_BAND_TYPE, 26200, 27900, 27500, 1⟩,
   ⟨SW_BAND_TYPE, 28000, 30000, 28400, 1⟩]

/-- `const int lastBand = (sizeof band / sizeof(Band)) - 1;` -/
def lastBand : Nat := bandTable.length - 1

/-- One tuner-chip call (or a fixed `delay(ms)` pause) as emitted by the
sketch.  Each constructor mirrors one `si4735.*` method used. -/
inductive Cmd where
  | reset : Cmd
  | queryLibraryId : Cmd
  | patchPowerUp : Cmd
  | downloadPatch : Cmd
  | setSSBConfig (audiobw sbcutflt avcDivider avcen smutesel dspAfcdis : Nat) : Cmd
  | setSSBAudioBandwidth (idx : Nat) : Cmd
  | setSBBSidebandCutoffFilter (v : Nat) : Cmd
  | setBandwidth (idx v : Nat) : Cmd
  | setFrequencyStep (st : Nat) : Cmd
  | setTuneFrequencyAntennaCapacitor (v : Nat) : Cmd
  | setFM (mn mx cur st : Nat) : Cmd
  | setAM (mn mx cur st : Nat) : Cmd
  | setSSB (mn mx cur st mode : Nat) : Cmd
  | setSSBAutomaticVolumeControl (v : Nat) : Cmd
  | setSsbSoftMuteMaxAttenuation (v : Nat) : Cmd
  | setAmSoftMuteMaxAttenuation (v : Nat) : Cmd
  | setAutomaticGainControl (a b : Nat) : Cmd
  | setFmStereoOn : Cmd
  | setFmStereoOff : Cmd
  | setSSBBfo (v : Int) : Cmd
  | frequencyUp : Cmd
  | frequencyDown : Cmd
  | seekStationUp : Cmd
  | volumeUp : Cmd
  | volumeDown : Cmd
  | delayMs (ms : Nat) : Cmd
deriving DecidableEq

/-- The mutable globals of the sketch that the control flow reads or
writes (display caches and RSSI polling state are embedded separately). -/
structure RadioState where
  currentMode : Nat
  bfoOn : Bool
  ssbLoaded : Bool
  fmStereo : Bool
  disableAgc : Bool
  currentFrequency : Nat
  currentStep : Nat
  currentBFO : Int
  currentBFOStep : Nat
  bwIdxSSB : Nat
  bwIdxAM : Nat
  bandIdx : Nat
  band : List Band
  volume : Nat
deriving DecidableEq

/-- `band[bandIdx]` for a given state. -/
def curBand (s : RadioState) : Band := s.band.getD s.bandIdx defaultBand

/-- Write `currentFreq`/`currentStep` of table entry `i` (in-place array
assignment in the sketch). -/
def updateBandEntry (bs : List Band) (i : Nat) (f st : Nat) : List Band :=
  bs.set i { bs.getD i defaultBand with currentFreq := f, currentStep := st }

/-- Write only `currentStep` of table entry `i`. -/
def updateBandStep (bs : List Band) (i : Nat) (st : Nat) : List Band :=
  bs.set i { bs.getD i defaultBand with currentStep := st }

/-- `loadSSB()`: patch download sequence.  The `delay(50)` that the
source shows between `downloadPatch` and `setSSBConfig` is commented
out in the source, so no delay is emitted there. -/
def loadSSB (s : RadioState) : RadioState × List Cmd :=
  ({ s with ssbLoaded := true },
   [Cmd.reset, Cmd.queryLibraryId, Cmd.patchPowerUp, Cmd.delayMs 50,
    Cmd.downloadPatch, Cmd.setSSBConfig s.bwIdxSSB 1 0 0 0 1,
    Cmd.delayMs 25])

/-- `useBand()`: reconfigure the tuner for `band[bandIdx]`. -/
def useBand (s : RadioState) : RadioState × List Cmd :=
  let b := curBand s
  if b.bandType = FM_BAND_TYPE then
    ({ s with currentMode := FM, bfoOn := false, ssbLoaded := false,
              currentFrequency := b.currentFreq, currentStep := b.currentStep },
     [Cmd.setTuneFrequencyAntennaCapacitor 0,
      Cmd.setFM b.minimumFreq b.maximumFreq b.currentFreq b.currentStep,
      Cmd.delayMs 100])
  else
    let cap : Nat :=
      if b.bandType = MW_BAND_TYPE ∨ b.bandType = LW_BAND_TYPE then 0 else 1
    if s.ssbLoaded then
      ({ s with currentFrequency := b.currentFreq, currentStep := b.currentStep },
       [Cmd.setTuneFrequencyAntennaCapacitor cap,
        Cmd.setSSB b.minimumFreq b.maximumFreq b.currentFreq b.currentStep s.currentMode,
        Cmd.setSSBAutomaticVolumeControl 1,
        Cmd.setSsbSoftMuteMaxAttenuation 0,
        Cmd.delayMs 100])
    else
      ({ s with currentMode := AM, bfoOn := false,
                currentFrequency := b.currentFreq, currentStep := b.currentStep },
       [Cmd.setTuneFrequencyAntennaCapacitor cap,
        Cmd.setAM b.minimumFreq b.maximumFreq b.currentFreq b.currentStep,
        Cmd.setAutomaticGainControl 1 0,
        Cmd.setAmSoftMuteMaxAttenuation 0,
        Cmd.delayMs 100])

/-- `bandUp()`: save the outgoing band's frequency and step, advance
`bandIdx` with wrap at the top, then `useBand()`. -/
def bandUp (s : RadioState) : RadioState × List Cmd :=
  useBand
    { s with band := updateBandEntry s.band s.bandIdx s.currentFrequency s.currentStep,
             bandIdx := if s.bandIdx < lastBand then s.bandIdx + 1 else 0 }

/-- `bandDown()`: save the outgoing band's frequency and step, retreat
`bandIdx` with wrap at the bottom, then `useBand()`. -/
def bandDown (s : RadioState) : RadioState × List Cmd :=
  useBand
    { s with band := updateBandEntry s.band s.bandIdx s.currentFrequency s.currentStep,
             bandIdx := if 0 < s.bandIdx then s.bandIdx - 1 else lastBand }

/-- The `MODE_SWITCH` button handler in `loop()`. -/
def modeSwitch (s : RadioState) : RadioState × List Cmd :=
  if s.currentMode ≠ FM then
    let p : RadioState × List Cmd :=
      if s.currentMode = AM then
        let q := loadSSB s
        ({ q.1 with currentMode := LSB }, q.2)
      else if s.currentMode = LSB then
        ({ s with currentMode := USB }, [])
      else if s.currentMode = USB then
        ({ s with currentMode := AM, ssbLoaded := false, bfoOn := false }, [])
      else (s, [])
    let s2 : RadioState :=
      { p.1 with band := updateBandEntry p.1.band p.1.bandIdx
                           p.1.currentFrequency p.1.currentStep }
    let r := useBand s2
    (r.1, p.2 ++ r.2)
  else (s, [])

/-- The `BANDWIDTH_BUTTON` handler in `loop()` (including the trailing
`delay(MIN_ELAPSED_TIME)`).  Indices are `uint8_t` in the sketch, hence
the `% 256` on the increments. -/
def bandwidthPress (s : RadioState) : RadioState × List Cmd :=
  if s.currentMode = LSB ∨ s.currentMode = USB then
    let i := (s.bwIdxSSB + 1) % 256
    let i := if i > 5 then 0 else i
    ({ s with bwIdxSSB := i },
     Cmd.setSSBAudioBandwidth i ::
       (if i = 0 ∨ i = 4 ∨ i = 5 then [Cmd.setSBBSidebandCutoffFilter 0]
        else [Cmd.setSBBSidebandCutoffFilter 1]) ++ [Cmd.delayMs 100])
  else if s.currentMode = AM then
    let j := (s.bwIdxAM + 1) % 256
    let j := if j > 6 then 0 else j
    ({ s with bwIdxAM := j }, [Cmd.setBandwidth j 1, Cmd.delayMs 100])
  else (s, [Cmd.delayMs 100])

/-- The step-cycling chain of the `STEP_SWITCH` handler:
`if currentStep == 1 → 5; else if == 5 → 10; else → 1`. -/
def stepNext (st : Nat) : Nat :=
  if st = 1 then 5 else if st = 5 then 10 else 1

/-- The `STEP_SWITCH` handler in `loop()`: toggles FM stereo in FM mode,
toggles the BFO step when BFO adjustment is active in LSB/USB, and
otherwise cycles the tuning step 1, 5, 10 and stores it into the active
band entry. -/
def stepPress (s : RadioState) : RadioState × List Cmd :=
  if s.currentMode = FM then
    let st := !s.fmStereo
    ({ s with fmStereo := st },
     [if st then Cmd.setFmStereoOn else Cmd.setFmStereoOff])
  else if s.bfoOn ∧ (s.currentMode = LSB ∨ s.currentMode = USB) then
    ({ s with currentBFOStep := if s.currentBFOStep = 25 then 10 else 25 },
     [Cmd.delayMs 100])
  else
    let ns := stepNext s.currentStep
    ({ s with currentStep := ns, band := updateBandStep s.band s.bandIdx ns },
     [Cmd.setFrequencyStep ns, Cmd.delayMs 100])

/-- The `BFO_SWITCH` handler in `loop()`.  `seekFreq` is the frequency
the chip reports after `seekStationUp` in the FM branch. -/
def bfoPress (s : RadioState) (seekFreq : Nat) : RadioState × List Cmd :=
  if s.currentMode = LSB ∨ s.currentMode = USB then
    ({ s with bfoOn := !s.bfoOn }, [Cmd.delayMs 100])
  else if s.currentMode = FM then
    ({ s with currentFrequency := seekFreq },
     [Cmd.seekStationUp, Cmd.delayMs 30, Cmd.delayMs 100])
  else (s, [Cmd.delayMs 100])

/-- The `AGC_SWITCH` handler in `loop()`. -/
def agcPress (s : RadioState) : RadioState × List Cmd :=
  let d := !s.disableAgc
  ({ s with disableAgc := d },
   [Cmd.setAutomaticGainControl (if d then 1 else 0) 1])

/-- The encoder branch at the top of `loop()`.  `chipFreq` is the
frequency the chip reports after `frequencyUp`/`frequencyDown`. -/
def encoderTurn (s : RadioState) (cw : Bool) (chipFreq : Nat) : RadioState × List Cmd :=
  if s.bfoOn then
    let nb := if cw then s.currentBFO + (s.currentBFOStep : Int)
              else s.currentBFO - (s.currentBFOStep : Int)
    ({ s with currentBFO := nb }, [Cmd.setSSBBfo nb])
  else
    ({ s with currentFrequency := chipFreq },
     [if cw then Cmd.frequencyUp else Cmd.frequencyDown])

/-- The volume button handlers.  `chipVol` is the volume read back from
the chip. -/
def volPress (s : RadioState) (up : Bool) (chipVol : Nat) : RadioState × List Cmd :=
  ({ s with volume := chipVol },
   [if up then Cmd.volumeUp else Cmd.volumeDown, Cmd.delayMs 100])

/-- One discrete input event consumed by the control loop. Parameters
carry the values the loop reads back from the chip after the action. -/
inductive Event where
  | encoder (cw : Bool) (chipFreq : Nat) : Event
  | bandwidthBtn : Event
  | bandUpBtn : Event
  | bandDownBtn : Event
  | volUpBtn (chipVol : Nat) : Event
  | volDownBtn (chipVol : Nat) : Event
  | bfoBtn (seekFreq : Nat) : Event
  | agcBtn : Event
  | stepBtn : Event
  | modeBtn : Event
deriving DecidableEq

/-- One pass of `loop()` handling a single event (the button scan is an
`else if` chain, so at most one handler fires per pass). -/
def stepEvent (s : RadioState) : Event → RadioState × List Cmd
  | Event.encoder cw f => encoderTurn s cw f
  | Event.bandwidthBtn => bandwidthPress s
  | Event.bandUpBtn => bandUp s
  | Event.bandDownBtn => bandDown s
  | Event.volUpBtn v => volPress s true v
  | Event.volDownBtn v => volPress s false v
  | Event.bfoBtn f => bfoPress s f
  | Event.agcBtn => agcPress s
  | Event.stepBtn => stepPress s
  | Event.modeBtn => modeSwitch s

/-- Global-variable initial values of the sketch, before `setup()` runs
`useBand()`. -/
def globalsInit : RadioState :=
  { currentMode := FM, bfoOn := false, ssbLoaded := false, fmStereo := true,
    disableAgc := true, currentFrequency := 0, currentStep := 1,
    currentBFO := 0, currentBFOStep := 25, bwIdxSSB := 2, bwIdxAM := 1,
    bandIdx := 0, band := bandTable, volume := 45 }

/-- State after `setup()` (which ends with `useBand()` on band 0). -/
def initState : RadioState := (useBand globalsInit).1

/-- The states reachable by the control loop from power-on. -/
inductive Reachable : RadioState → Prop where
  | init : Reachable initState
  | step (s : RadioState) (e : Event) :
      Reachable s → Reachable (stepEvent s e).1

/-! ### Display: the differential renderer `printValue` -/

/-- One glyph written on the OLED: position, character, and whether it
was drawn in the foreground color (`SSD1306_WHITE`, `white = true`) or
erased in the background color (`SSD1306_BLACK`, `white = false`). -/
structure GWrite where
  x : Int
  y : Int
  ch : Char
  white : Bool
deriving DecidableEq

/-- The second loop of `printValue` ("Is there anything else to
erase?"): erase each remaining old glyph in the background color. -/
def eraseRun (line space : Int) : Int → List Char → List GWrite
  | _, [] => []
  | c, ch :: r => ⟨c, line, ch, false⟩ :: eraseRun line space (c + space) r

/-- The third loop of `printValue` ("Is there anything else to
print?"): draw each remaining new glyph in the foreground color. -/
def drawRun (line space : Int) : Int → List Char → List GWrite
  | _, [] => []
  | c, ch :: r => ⟨c, line, ch, true⟩ :: drawRun line space (c + space) r

/-- The three loops of `printValue`: walk `oldValue`/`newValue` in
lockstep from column `c`; at each differing position erase the old
glyph then draw the new one; when one string ends, erase the old tail
or draw the new tail. -/
def diffWrites (line space : Int) : Int → List Char → List Char → List GWrite
  | c, po :: pos, pn :: pns =>
      (if po = pn then [] else [⟨c, line, po, false⟩, ⟨c, line, pn, true⟩]) ++
        diffWrites line space (c + space) pos pns
  | c, pos, [] => eraseRun line space c pos
  | c, [], pns => drawRun line space c pns

/-- `printValue(col, line, oldValue, newValue, space)`: the ordered list
of glyph writes it performs, and the new content of the `oldValue`
cache after the final `strcpy`.  `whiteIn` is the text color in effect
on entry.  Before the differential loops, the source unconditionally
does `oled.setCursor(38, 0); oled.write(newValue[0]); oled.write(oldValue[0]);`,
so the first characters of both strings are written at (38, 0) and
(44, 0) (the classic font at text size 1 advances the cursor by 6
pixels per glyph) in the inherited color. -/
def printValue (col line : Int) (oldValue newValue : List Char) (space : Int)
    (whiteIn : Bool) : List GWrite × List Char :=
  (⟨38, 0, newValue.getD 0 (Char.ofNat 0), whiteIn⟩ ::
     ⟨44, 0, oldValue.getD 0 (Char.ofNat 0), whiteIn⟩ ::
     diffWrites line space col oldValue newValue,
   newValue)

/-! ### Display: the frequency field formatting of `showFrequency` -/

/-- `sprintf(tmp, "%5u", n)`: decimal digits of `n`, right-justified in
a field of (at least) five characters, padded with spaces. -/
def sprintf5u (n : Nat) : List Char :=
  let ds := Nat.toDigits 10 n
  List.replicate (5 - ds.length) ' ' ++ ds

/-- The `freq` character array built by `showFrequency`: for an FM band
a decimal point is inserted after the third character of the five
character rendering, otherwise the five characters are used as-is. -/
def freqField (bandType : Nat) (n : Nat) : List Char :=
  let tmp := sprintf5u n
  if bandType = FM_BAND_TYPE then
    [tmp.getD 0 ' ', tmp.getD 1 ' ', tmp.getD 2 ' ', '.', tmp.getD 3 ' ', tmp.getD 4 ' ']
  else
    [tmp.getD 0 ' ', tmp.getD 1 ' ', tmp.getD 2 ' ', tmp.getD 3 ' ', tmp.getD 4 ' ']

/-- The unit string chosen by `showFrequency`. -/
def unitFor (bandType : Nat) : List Char :=
  if bandType = FM_BAND_TYPE then ['M', 'H', 'z'] else ['K', 'H', 'z']

/-- `displayBuffer` as filled by `showFrequency`: the frequency field,
bracketed while BFO adjustment is active. -/
def displayBufferOf (bfo : Bool) (freq : List Char) : List Char :=
  if bfo then ('>' :: freq) ++ ['<'] else freq

/-- The `bandModeDesc[]` table of the sketch. -/
def bandModeDesc : List (List Char) :=
  [['F', 'M', ' '], ['L', 'S', 'B'], ['U', 'S', 'B'], ['A', 'M', ' ']]

/-- The mode label rendered by `showFrequency`: the fixed "LW" text
whenever the displayed frequency is below 520, otherwise
`bandModeDesc[currentMode]`. -/
def bandModeLabel (freq mode : Nat) : List Char :=
  if freq < 520 then ['L', 'W', ' ', ' '] else bandModeDesc.getD mode []

/-- Recognizer for the `downloadPatch` command, used to count patch-load
sequences in a trace. -/
def isDownload : Cmd → Bool
  | Cmd.downloadPatch => true
  | _ => false

/-- Number of patch-buffer downloads in a command trace. -/
def patchLoadCount (t : List Cmd) : Nat := t.countP isDownload

/-- Recognizer for the fixed `delay(ms)` pauses in a trace. -/
def isDelay : Cmd → Bool
  | Cmd.delayMs _ => true
  | _ => false

/-! ## Theorems -/

/-- C5 counterexample: the claim renders SW raw value 7200 as "07200",
but `sprintf("%5u", 7200)` pads with spaces, so the field is " 7200"
(leading space), not "07200". -/
theorem freqField_sw_7200_not_zero_padded :
    freqField SW_BAND_TYPE 7200 ≠ ['0', '7', '2', '0', '0'] ∧
    freqField SW_BAND_TYPE 7200 = [' ', '7', '2', '0', '0'] := by
  decide

/-- C5 (amended): for an FM band, raw value 10570 renders as "105.70"
with unit "MHz" (decimal point after the third character of the
five-character rendering); for an SW band, raw value 7200 renders as
" 7200" (five characters, space-padded on the left) with unit "KHz",
and the mode label for value 7200 (≥ 520) in mode AM is "AM ". -/
theorem freqField_formats :
    freqField FM_BAND_TYPE 10570 = ['1', '0', '5', '.', '7', '0'] ∧
    unitFor FM_BAND_TYPE = ['M', 'H', 'z'] ∧
    freqField SW_BAND_TYPE 7200 = [' ', '7', '2', '0', '0'] ∧
    unitFor SW_BAND_TYPE = ['K', 'H', 'z'] ∧
    bandModeLabel 7200 AM = ['A', 'M', ' '] := by
  decide

/-- C9: whenever the displayed frequency is strictly below 520 the
rendered mode label is the fixed "LW" text, regardless of the stored
mode; for values at or above 520 it is `bandModeDesc[currentMode]`.
The label function reads the state and never writes it, so the
override affects only the rendering. -/
theorem bandModeLabel_lw_override (f m : Nat) :
    (f < 520 → bandModeLabel f m = ['L', 'W', ' ', ' ']) ∧
    (520 ≤ f → bandModeLabel f m = bandModeDesc.getD m []) ∧
    (∀ m2, f < 520 → bandModeLabel f m = bandModeLabel f m2) := by
  refine ⟨fun h => ?_, fun h => ?_, fun m2 h => ?_⟩
  · simp [bandModeLabel, h]
  · simp [bandModeLabel, Nat.not_lt.mpr h]
  · simp [bandModeLabel, h]

/-- Witness for C9 at frequency 300 (below 520, stored mode USB) and at
frequency 7200 (at or above 520, stored mode AM). -/
theorem bandModeLabel_lw_override_witness :
    (300 < 520 ∧ bandModeLabel 300 USB = ['L', 'W', ' ', ' ']) ∧
    (520 ≤ 7200 ∧ bandModeLabel 7200 AM = bandModeDesc.getD AM []) := by
  exact ⟨⟨by decide, (bandModeLabel_lw_override 300 USB).1 (by decide)⟩,
         ⟨by decide, (bandModeLabel_lw_override 7200 AM).2.1 (by decide)⟩⟩

/-- C3 counterexample: the claim requires a settle delay between the
patch download and the SSB configuration call, but in the source that
`delay(50)` is commented out: in the trace of `loadSSB` from the
initial state the command right after `downloadPatch` (position 4) is
the `setSSBConfig` call, not a delay, as the delay map shows. -/
theorem loadSSB_no_delay_after_download :
    (loadSSB initState).2 =
      [Cmd.reset, Cmd.queryLibraryId, Cmd.patchPowerUp, Cmd.delayMs 50,
       Cmd.downloadPatch, Cmd.setSSBConfig 2 1 0 0 0 1, Cmd.delayMs 25] ∧
    (loadSSB initState).2.map isDelay =
      [false, false, false, true, false, false, true] := by
  decide

/-- C3 (amended): every execution of the SSB patch-load sequence emits
exactly: reset, query-library-id, patch-power-up, a fixed 50 ms settle
delay, download of the patch buffer, then immediately (with no
intervening delay) the SSB configuration call whose bandwidth argument
is the current `bwIdxSSB` (the other arguments being the fixed values
1, 0, 0, 0, 1), then a fixed 25 ms settle delay; and it marks
`ssbLoaded` true while changing nothing else in the state. -/
theorem loadSSB_trace (s : RadioState) :
    (loadSSB s).2 =
      [Cmd.reset, Cmd.queryLibraryId, Cmd.patchPowerUp, Cmd.delayMs 50,
       Cmd.downloadPatch, Cmd.setSSBConfig s.bwIdxSSB 1 0 0 0 1,
       Cmd.delayMs 25] ∧
    (loadSSB s).1 = { s with ssbLoaded := true } := by
  exact ⟨rfl, rfl⟩

/-- C4 (code bug): on the frequency-field call
`printValue(38, 0, "10570", "10580", 7)` the differential pass alone
touches exactly the one differing digit position (erase '7' then draw
'8' at column 38 + 3·7 = 59), as the claim states — but the function
additionally writes `newValue[0]` at (38, 0) and `oldValue[0]` at
(44, 0) before the loops, touching the equal position-0 cell, contrary
to the claim and to the function's own comment that it writes just the
changed information. -/
theorem printValue_stray_prelude_writes :
    diffWrites 0 7 38 ['1', '0', '5', '7', '0'] ['1', '0', '5', '8', '0'] =
      [⟨59, 0, '7', false⟩, ⟨59, 0, '8', true⟩] ∧
    (printValue 38 0 ['1', '0', '5', '7', '0'] ['1', '0', '5', '8', '0'] 7 true).1 =
      [⟨38, 0, '1', true⟩, ⟨44, 0, '1', true⟩,
       ⟨59, 0, '7', false⟩, ⟨59, 0, '8', true⟩] := by
  decide

/-! ### Helper lemmas about the band table and `useBand` -/

theorem getD_set_self {α : Type} (l : List α) (i : Nat) (a d : α)
    (h : i < l.length) : (l.set i a).getD i d = a := by
  simp [List.getD, List.getElem?_set_self', List.getElem?_eq_getElem, h]

theorem useBand_band (s : RadioState) : (useBand s).1.band = s.band := by
  unfold useBand
  by_cases h1 : (curBand s).bandType = FM_BAND_TYPE
  · simp [h1]
  · by_cases h2 : s.ssbLoaded <;> simp [h1, h2]

theorem useBand_bandIdx (s : RadioState) : (useBand s).1.bandIdx = s.bandIdx := by
  unfold useBand
  by_cases h1 : (curBand s).bandType = FM_BAND_TYPE
  · simp [h1]
  · by_cases h2 : s.ssbLoaded <;> simp [h1, h2]

/-- C7: the bandwidth button increments `bwIdxSSB` with wrap 5 → 0 in
LSB/USB, applies it to the tuner's SSB audio bandwidth, and sets the
sideband cutoff filter to narrow (0) exactly when the resulting index
is 0, 4 or 5, wide (1) otherwise; in AM it increments `bwIdxAM` with
wrap 6 → 0 and applies it to the tuner's AM bandwidth. -/
theorem bandwidthPress_spec (s : RadioState) :
    ((s.currentMode = LSB ∨ s.currentMode = USB) → s.bwIdxSSB ≤ 5 →
      (bandwidthPress s).1.bwIdxSSB = (if s.bwIdxSSB = 5 then 0 else s.bwIdxSSB + 1) ∧
      (bandwidthPress s).2 =
        [Cmd.setSSBAudioBandwidth (bandwidthPress s).1.bwIdxSSB,
         Cmd.setSBBSidebandCutoffFilter
           (if (bandwidthPress s).1.bwIdxSSB = 0 ∨ (bandwidthPress s).1.bwIdxSSB = 4 ∨
               (bandwidthPress s).1.bwIdxSSB = 5 then 0 else 1),
         Cmd.delayMs 100]) ∧
    (s.currentMode = AM → s.bwIdxAM ≤ 6 →
      (bandwidthPress s).1.bwIdxAM = (if s.bwIdxAM = 6 then 0 else s.bwIdxAM + 1) ∧
      (bandwidthPress s).2 =
        [Cmd.setBandwidth (bandwidthPress s).1.bwIdxAM 1, Cmd.delayMs 100]) := by
  constructor
  · intro hm hb
    have hmod : (s.bwIdxSSB + 1) % 256 = s.bwIdxSSB + 1 :=
      Nat.mod_eq_of_lt (by omega)
    rcases hm with h | h <;>
    · simp only [bandwidthPress, h, LSB, USB, AM, hmod]
      norm_num
      by_cases h5 : s.bwIdxSSB = 5
      · simp [h5]
      · have hgt : ¬ (s.bwIdxSSB + 1 > 5) := by omega
        simp only [hgt, if_false, h5]
        by_cases hc : s.bwIdxSSB + 1 = 4 ∨ s.bwIdxSSB + 1 = 5
        · rcases hc with hc | hc <;> simp [hc]
        · push_neg at hc
          simp [hc.1, hc.2]
  · intro hm hb
    have hmod : (s.bwIdxAM + 1) % 256 = s.bwIdxAM + 1 :=
      Nat.mod_eq_of_lt (by omega)
    simp only [bandwidthPress, hm, LSB, USB, AM, hmod]
    norm_num
    by_cases h6 : s.bwIdxAM = 6
    · simp [h6]
    · have hgt : ¬ (s.bwIdxAM + 1 > 6) := by omega
      simp [hgt, h6]

/-- Witness for C7: from the reachable-range states with `bwIdxSSB = 5`
(mode LSB) one press wraps the SSB index to 0 and the cutoff filter is
set to narrow, and with `bwIdxAM = 6` (mode AM) one press wraps the AM
index to 0. -/
theorem bandwidthPress_spec_witness :
    (({ globalsInit with currentMode := LSB, bwIdxSSB := 5 } : RadioState).currentMode = LSB ∨
       ({ globalsInit with currentMode := LSB, bwIdxSSB := 5 } : RadioState).currentMode = USB) ∧
    ({ globalsInit with currentMode := LSB, bwIdxSSB := 5 } : RadioState).bwIdxSSB ≤ 5 ∧
    (bandwidthPress { globalsInit with currentMode := LSB, bwIdxSSB := 5 }).1.bwIdxSSB = 0 ∧
    (bandwidthPress { globalsInit with currentMode := LSB, bwIdxSSB := 5 }).2 =
      [Cmd.setSSBAudioBandwidth 0, Cmd.setSBBSidebandCutoffFilter 0, Cmd.delayMs 100] ∧
    (bandwidthPress { globalsInit with currentMode := AM, bwIdxAM := 6 }).1.bwIdxAM = 0 := by
  have h1 := (bandwidthPress_spec { globalsInit with currentMode := LSB, bwIdxSSB := 5 }).1
    (Or.inl (by decide)) (by decide)
  have h2 := (bandwidthPress_spec { globalsInit with currentMode := AM, bwIdxAM := 6 }).2
    (by decide) (by decide)
  refine ⟨Or.inl (by decide), by decide, ?_, ?_, ?_⟩
  · rw [h1.1]; decide
  · rw [h1.2]; decide
  · rw [h2.1]; decide

/-- C8: when the step button is pressed in a non-FM mode with BFO
adjustment not active, `currentStep` advances by the exact cycle
1 → 5 → 10 → 1, the new step is applied to the tuner, and it is stored
into the active band's table entry; band-up and band-down persist
`currentStep` into the outgoing band entry, making each band's step
independent; in FM the same button toggles the stereo flag, and in
LSB/USB with BFO active it toggles the BFO step between 25 and 10. -/
theorem stepPress_spec (s : RadioState) :
    (s.currentMode ≠ FM →
     ¬(s.bfoOn = true ∧ (s.currentMode = LSB ∨ s.currentMode = USB)) →
     s.bandIdx < s.band.length →
      (stepPress s).1.currentStep = stepNext s.currentStep ∧
      (stepPress s).2 = [Cmd.setFrequencyStep (stepNext s.currentStep), Cmd.delayMs 100] ∧
      ((stepPress s).1.band.getD s.bandIdx defaultBand).currentStep = stepNext s.currentStep ∧
      (stepPress s).1.bandIdx = s.bandIdx) ∧
    (stepNext 1 = 5 ∧ stepNext 5 = 10 ∧ stepNext 10 = 1) ∧
    (s.bandIdx < s.band.length →
      ((bandUp s).1.band.getD s.bandIdx defaultBand).currentStep = s.currentStep ∧
      ((bandDown s).1.band.getD s.bandIdx defaultBand).currentStep = s.currentStep) ∧
    (s.currentMode = FM →
      (stepPress s).1.fmStereo = !s.fmStereo ∧
      (stepPress s).1.currentStep = s.currentStep) ∧
    (s.bfoOn = true → (s.currentMode = LSB ∨ s.currentMode = USB) →
      (stepPress s).1.currentBFOStep = (if s.currentBFOStep = 25 then 10 else 25) ∧
      (stepPress s).1.currentStep = s.currentStep) := by
  refine ⟨?_, by decide, ?_, ?_, ?_⟩
  · intro hFM hB hlen
    rw [stepPress, if_neg hFM, if_neg hB]
    refine ⟨rfl, rfl, ?_, rfl⟩
    simp only [updateBandStep]
    rw [getD_set_self _ _ _ _ (by simpa using hlen)]
  · intro hlen
    constructor
    · rw [bandUp, useBand_band]
      simp only [updateBandEntry]
      rw [getD_set_self _ _ _ _ (by simpa using hlen)]
    · rw [bandDown, useBand_band]
      simp only [updateBandEntry]
      rw [getD_set_self _ _ _ _ (by simpa using hlen)]
  · intro h
    rw [stepPress, if_pos h]
    exact ⟨rfl, rfl⟩
  · intro hb hm
    have hFM : ¬ s.currentMode = FM := by
      rcases hm with h | h <;> simp [h, LSB, USB, FM]
    rw [stepPress, if_neg hFM, if_pos ⟨hb, hm⟩]
    exact ⟨rfl, rfl⟩

/-- A concrete non-FM state (band 7, a short-wave band, mode AM, step 1)
used to exercise the step-button theorem. -/
def stepDemo : RadioState :=
  { globalsInit with currentMode := AM, bandIdx := 7 }

/-- Witness for C8 at `stepDemo`: step 1 advances to 5 and is stored in
band entry 7. -/
theorem stepPress_spec_witness :
    stepDemo.currentMode ≠ FM ∧
    ¬(stepDemo.bfoOn = true ∧ (stepDemo.currentMode = LSB ∨ stepDemo.currentMode = USB)) ∧
    stepDemo.bandIdx < stepDemo.band.length ∧
    (stepPress stepDemo).1.currentStep = 5 ∧
    ((stepPress stepDemo).1.band.getD stepDemo.bandIdx defaultBand).currentStep = 5 := by
  have h := (stepPress_spec stepDemo).1 (by decide) (by decide) (by decide)
  refine ⟨by decide, by decide, by decide, ?_, ?_⟩
  · rw [h.1]; decide
  · rw [h.2.2.1]; decide

/-! ### Band index circularity (C2) -/

/-- The state part of `bandUp()`. -/
def bandUpState (s : RadioState) : RadioState := (bandUp s).1

/-- The state part of `bandDown()`. -/
def bandDownState (s : RadioState) : RadioState := (bandDown s).1

/-- The index advance performed by `bandUp()`. -/
def bu (i : Nat) : Nat := if i < lastBand then i + 1 else 0

/-- The index retreat performed by `bandDown()`. -/
def bd (i : Nat) : Nat := if 0 < i then i - 1 else lastBand

theorem bandUpState_bandIdx (s : RadioState) :
    (bandUpState s).bandIdx = bu s.bandIdx := by
  unfold bandUpState bandUp bu
  rw [useBand_bandIdx]

theorem bandDownState_bandIdx (s : RadioState) :
    (bandDownState s).bandIdx = bd s.bandIdx := by
  unfold bandDownState bandDown bd
  rw [useBand_bandIdx]

theorem bu_le (i : Nat) : bu i ≤ lastBand := by
  unfold bu; split <;> omega

theorem bd_le (i : Nat) (h : i ≤ lastBand) : bd i ≤ lastBand := by
  unfold bd; split <;> omega

theorem bd_bu (i : Nat) (h : i ≤ lastBand) : bd (bu i) = i := by
  unfold bu bd
  by_cases h1 : i < lastBand
  · simp [h1]
  · simp [h1]
    omega

theorem bu_bd (i : Nat) (h : i ≤ lastBand) : bu (bd i) = i := by
  unfold bu bd
  by_cases h0 : 0 < i
  · have h1 : i - 1 < lastBand := by omega
    simp [h0, h1]
    omega
  · simp [h0]
    omega

theorem iterUp_bandIdx (n : Nat) (s : RadioState) :
    (bandUpState^[n] s).bandIdx = bu^[n] s.bandIdx := by
  induction n generalizing s with
  | zero => rfl
  | succ n ih =>
      rw [Function.iterate_succ_apply', Function.iterate_succ_apply',
          bandUpState_bandIdx, ih]

theorem iterDown_bandIdx (n : Nat) (s : RadioState) :
    (bandDownState^[n] s).bandIdx = bd^[n] s.bandIdx := by
  induction n generalizing s with
  | zero => rfl
  | succ n ih =>
      rw [Function.iterate_succ_apply', Function.iterate_succ_apply',
          bandDownState_bandIdx, ih]

theorem buN_le (n i : Nat) (h : i ≤ lastBand) : bu^[n] i ≤ lastBand := by
  induction n with
  | zero => exact h
  | succ n ih => rw [Function.iterate_succ_apply']; exact bu_le _

theorem bdN_le (n i : Nat) (h : i ≤ lastBand) : bd^[n] i ≤ lastBand := by
  induction n with
  | zero => exact h
  | succ n ih => rw [Function.iterate_succ_apply']; exact bd_le _ ih

theorem bdN_buN (n i : Nat) (h : i ≤ lastBand) : bd^[n] (bu^[n] i) = i := by
  induction n generalizing i with
  | zero => rfl
  | succ n ih =>
      rw [Function.iterate_succ_apply' (f := bu), Function.iterate_succ_apply (f := bd),
          bd_bu _ (buN_le n i h), ih i h]

theorem buN_bdN (n i : Nat) (h : i ≤ lastBand) : bu^[n] (bd^[n] i) = i := by
  induction n generalizing i with
  | zero => rfl
  | succ n ih =>
      rw [Function.iterate_succ_apply' (f := bd), Function.iterate_succ_apply (f := bu),
          bu_bd _ (bdN_le n i h), ih i h]

/-- C2: for every in-range starting band index, N presses of band-up
followed by N presses of band-down (and vice versa) return `bandIdx` to
its original value; and each band-up/band-down step is exactly:
save `currentFrequency`/`currentStep` into the outgoing band entry,
advance `bandIdx` circularly (up wraps from `lastBand` to 0, down wraps
from 0 to `lastBand`), then invoke `useBand`. -/
theorem bandUpDown_roundtrip (s : RadioState) (n : Nat) (h : s.bandIdx ≤ lastBand) :
    (bandDownState^[n] (bandUpState^[n] s)).bandIdx = s.bandIdx ∧
    (bandUpState^[n] (bandDownState^[n] s)).bandIdx = s.bandIdx ∧
    bandUp s = useBand
      { s with band := updateBandEntry s.band s.bandIdx s.currentFrequency s.currentStep,
               bandIdx := if s.bandIdx < lastBand then s.bandIdx + 1 else 0 } ∧
    bandDown s = useBand
      { s with band := updateBandEntry s.band s.bandIdx s.currentFrequency s.currentStep,
               bandIdx := if 0 < s.bandIdx then s.bandIdx - 1 else lastBand } := by
  refine ⟨?_, ?_, rfl, rfl⟩
  · rw [iterDown_bandIdx, iterUp_bandIdx, bdN_buN n _ h]
  · rw [iterUp_bandIdx, iterDown_bandIdx, buN_bdN n _ h]

/-- Witness for C2: from the initial state (band 0), 25 band-up presses
followed by 25 band-down presses (and vice versa) return `bandIdx` to 0. -/
theorem bandUpDown_roundtrip_witness :
    initState.bandIdx ≤ lastBand ∧
    (bandDownState^[25] (bandUpState^[25] initState)).bandIdx = initState.bandIdx ∧
    (bandUpState^[25] (bandDownState^[25] initState)).bandIdx = initState.bandIdx := by
  have h := bandUpDown_roundtrip initState 25 (by decide)
  exact ⟨by decide, h.1, h.2.1⟩

/-! ### Mode-switch cycle (C1) -/

theorem bandType_updateBandEntry (bs : List Band) (i f st : Nat) :
    ((updateBandEntry bs i f st).getD i defaultBand).bandType =
      (bs.getD i defaultBand).bandType := by
  unfold updateBandEntry
  by_cases h : i < bs.length
  · rw [getD_set_self _ _ _ _ h]
  · rw [List.set_eq_of_length_le (by omega)]

theorem curBand_useBand (s : RadioState) : curBand (useBand s).1 = curBand s := by
  rw [curBand, useBand_band, useBand_bandIdx, curBand]

theorem useBand_ssb_fields (s : RadioState)
    (hb : (curBand s).bandType ≠ FM_BAND_TYPE) (hl : s.ssbLoaded = true) :
    (useBand s).1.currentMode = s.currentMode ∧ (useBand s).1.ssbLoaded = true := by
  unfold useBand
  simp [hb, hl]

theorem useBand_nossb_fields (s : RadioState)
    (hb : (curBand s).bandType ≠ FM_BAND_TYPE) (hl : s.ssbLoaded = false) :
    (useBand s).1.currentMode = AM ∧ (useBand s).1.ssbLoaded = false ∧
    (useBand s).1.bfoOn = false := by
  unfold useBand
  simp [hb, hl]

theorem useBand_count (s : RadioState) : patchLoadCount (useBand s).2 = 0 := by
  unfold useBand patchLoadCount
  by_cases h1 : (curBand s).bandType = FM_BAND_TYPE
  · simp [h1, isDownload]
  · by_cases h2 : s.ssbLoaded <;>
      simp [h1, h2, isDownload, List.countP_cons, List.countP_nil]

theorem patchLoadCount_append (t1 t2 : List Cmd) :
    patchLoadCount (t1 ++ t2) = patchLoadCount t1 + patchLoadCount t2 := by
  simp [patchLoadCount, List.countP_append]

theorem patchLoadCount_loadSSB (s : RadioState) :
    patchLoadCount (loadSSB s).2 = 1 := by
  simp [loadSSB, patchLoadCount, isDownload, List.countP_cons, List.countP_nil]

/-- The state passed to `useBand` by the mode-switch handler when the
mode was AM: SSB patch loaded, mode LSB, outgoing entry saved. -/
def msAM (s : RadioState) : RadioState :=
  { s with currentMode := LSB, ssbLoaded := true,
           band := updateBandEntry s.band s.bandIdx s.currentFrequency s.currentStep }

/-- The state passed to `useBand` by the mode-switch handler when the
mode was LSB. -/
def msLSB (s : RadioState) : RadioState :=
  { s with currentMode := USB,
           band := updateBandEntry s.band s.bandIdx s.currentFrequency s.currentStep }

/-- The state passed to `useBand` by the mode-switch handler when the
mode was USB. -/
def msUSB (s : RadioState) : RadioState :=
  { s with currentMode := AM, ssbLoaded := false, bfoOn := false,
           band := updateBandEntry s.band s.bandIdx s.currentFrequency s.currentStep }

theorem modeSwitch_AM_eq (s : RadioState) (hm : s.currentMode = AM) :
    modeSwitch s = ((useBand (msAM s)).1, (loadSSB s).2 ++ (useBand (msAM s)).2) := by
  simp only [modeSwitch, msAM, loadSSB, hm, AM, FM, LSB, USB]
  norm_num

theorem modeSwitch_LSB_eq (s : RadioState) (hm : s.currentMode = LSB) :
    modeSwitch s = useBand (msLSB s) := by
  simp only [modeSwitch, msLSB, hm, AM, FM, LSB, USB]
  norm_num

theorem modeSwitch_USB_eq (s : RadioState) (hm : s.currentMode = USB) :
    modeSwitch s = useBand (msUSB s) := by
  simp only [modeSwitch, msUSB, hm, AM, FM, LSB, USB]
  norm_num

theorem curBand_msAM_bandType (s : RadioState) :
    (curBand (msAM s)).bandType = (curBand s).bandType := by
  simp only [curBand, msAM]
  exact bandType_updateBandEntry s.band s.bandIdx s.currentFrequency s.currentStep

theorem curBand_msLSB_bandType (s : RadioState) :
    (curBand (msLSB s)).bandType = (curBand s).bandType := by
  simp only [curBand, msLSB]
  exact bandType_updateBandEntry s.band s.bandIdx s.currentFrequency s.currentStep

theorem curBand_msUSB_bandType (s : RadioState) :
    (curBand (msUSB s)).bandType = (curBand s).bandType := by
  simp only [curBand, msUSB]
  exact bandType_updateBandEntry s.band s.bandIdx s.currentFrequency s.currentStep

/-- One mode-switch press from AM on a non-FM band: mode becomes LSB,
the patch is loaded (exactly one download), and the band type under the
cursor is unchanged. -/
theorem modeSwitch_from_AM (s : RadioState) (hm : s.currentMode = AM)
    (hb : (curBand s).bandType ≠ FM_BAND_TYPE) :
    (modeSwitch s).1.currentMode = LSB ∧ (modeSwitch s).1.ssbLoaded = true ∧
    patchLoadCount (modeSwitch s).2 = 1 ∧
    (curBand (modeSwitch s).1).bandType = (curBand s).bandType := by
  have hb2 : (curBand (msAM s)).bandType ≠ FM_BAND_TYPE := by
    rw [curBand_msAM_bandType]; exact hb
  have hf := useBand_ssb_fields (msAM s) hb2 rfl
  rw [modeSwitch_AM_eq s hm]
  refine ⟨?_, hf.2, ?_, ?_⟩
  · rw [hf.1]; rfl
  · rw [patchLoadCount_append, patchLoadCount_loadSSB, useBand_count]
  · rw [curBand_useBand, curBand_msAM_bandType]

/-- One mode-switch press from LSB (patch loaded) on a non-FM band:
mode becomes USB, the patch stays loaded, no download occurs. -/
theorem modeSwitch_from_LSB (s : RadioState) (hm : s.currentMode = LSB)
    (hl : s.ssbLoaded = true) (hb : (curBand s).bandType ≠ FM_BAND_TYPE) :
    (modeSwitch s).1.currentMode = USB ∧ (modeSwitch s).1.ssbLoaded = true ∧
    patchLoadCount (modeSwitch s).2 = 0 ∧
    (curBand (modeSwitch s).1).bandType = (curBand s).bandType := by
  have hb2 : (curBand (msLSB s)).bandType ≠ FM_BAND_TYPE := by
    rw [curBand_msLSB_bandType]; exact hb
  have hf := useBand_ssb_fields (msLSB s) hb2 hl
  rw [modeSwitch_LSB_eq s hm]
  refine ⟨?_, hf.2, useBand_count _, ?_⟩
  · rw [hf.1]; rfl
  · rw [curBand_useBand, curBand_msLSB_bandType]

/-- One mode-switch press from USB on a non-FM band: mode becomes AM,
`ssbLoaded` and `bfoOn` become false, no download occurs. -/
theorem modeSwitch_from_USB (s : RadioState) (hm : s.currentMode = USB)
    (hb : (curBand s).bandType ≠ FM_BAND_TYPE) :
    (modeSwitch s).1.currentMode = AM ∧ (modeSwitch s).1.ssbLoaded = false ∧
    (modeSwitch s).1.bfoOn = false ∧
    patchLoadCount (modeSwitch s).2 = 0 ∧
    (curBand (modeSwitch s).1).bandType = (curBand s).bandType := by
  have hb2 : (curBand (msUSB s)).bandType ≠ FM_BAND_TYPE := by
    rw [curBand_msUSB_bandType]; exact hb
  have hf := useBand_nossb_fields (msUSB s) hb2 rfl
  rw [modeSwitch_USB_eq s hm]
  refine ⟨hf.1, hf.2.1, hf.2.2, useBand_count _, ?_⟩
  rw [curBand_useBand, curBand_msUSB_bandType]

/-- C1: starting from mode AM on a non-FM band, the mode-switch button
cycles AM → LSB → USB → AM; the AM → LSB press performs exactly one
patch download (ending with `ssbLoaded = true`), the LSB → USB press
performs none, the USB → AM press clears `ssbLoaded` and `bfoOn`, and
the next AM → LSB press performs exactly one new patch download. -/
theorem modeSwitch_cycle (s : RadioState)
    (hm : s.currentMode = AM) (hb : (curBand s).bandType ≠ FM_BAND_TYPE) :
    ((modeSwitch s).1.currentMode = LSB ∧
     (modeSwitch s).1.ssbLoaded = true ∧
     patchLoadCount (modeSwitch s).2 = 1) ∧
    ((modeSwitch (modeSwitch s).1).1.currentMode = USB ∧
     patchLoadCount (modeSwitch (modeSwitch s).1).2 = 0) ∧
    ((modeSwitch (modeSwitch (modeSwitch s).1).1).1.currentMode = AM ∧
     (modeSwitch (modeSwitch (modeSwitch s).1).1).1.ssbLoaded = false ∧
     (modeSwitch (modeSwitch (modeSwitch s).1).1).1.bfoOn = false ∧
     patchLoadCount (modeSwitch (modeSwitch (modeSwitch s).1).1).2 = 0) ∧
    ((modeSwitch (modeSwitch (modeSwitch (modeSwitch s).1).1).1).1.currentMode = LSB ∧
     (modeSwitch (modeSwitch (modeSwitch (modeSwitch s).1).1).1).1.ssbLoaded = true ∧
     patchLoadCount (modeSwitch (modeSwitch (modeSwitch (modeSwitch s).1).1).1).2 = 1) := by
  obtain ⟨a1, a2, a3, a4⟩ := modeSwitch_from_AM s hm hb
  have hb1 : (curBand (modeSwitch s).1).bandType ≠ FM_BAND_TYPE := by
    rw [a4]; exact hb
  obtain ⟨b1, b2, b3, b4⟩ := modeSwitch_from_LSB (modeSwitch s).1 a1 a2 hb1
  have hb2 : (curBand (modeSwitch (modeSwitch s).1).1).bandType ≠ FM_BAND_TYPE := by
    rw [b4]; exact hb1
  obtain ⟨c1, c2, c3, c4, c5⟩ := modeSwitch_from_USB (modeSwitch (modeSwitch s).1).1 b1 hb2
  have hb3 : (curBand (modeSwitch (modeSwitch (modeSwitch s).1).1).1).bandType ≠ FM_BAND_TYPE := by
    rw [c5]; exact hb2
  obtain ⟨d1, d2, d3, _⟩ :=
    modeSwitch_from_AM (modeSwitch (modeSwitch (modeSwitch s).1).1).1 c1 hb3
  exact ⟨⟨a1, a2, a3⟩, ⟨b1, b3⟩, ⟨c1, c2, c3, c4⟩, ⟨d1, d2, d3⟩⟩

/-- A concrete state on the 40 m short-wave band (band 7) in mode AM,
used to exercise the mode-switch cycle. -/
def amDemo : RadioState :=
  { globalsInit with currentMode := AM, bandIdx := 7 }

/-- Witness for C1 at `amDemo`: the four presses produce LSB (one
download), USB (none), AM (none, flags cleared), LSB (one download). -/
theorem modeSwitch_cycle_witness :
    amDemo.currentMode = AM ∧ (curBand amDemo).bandType ≠ FM_BAND_TYPE ∧
    (modeSwitch amDemo).1.currentMode = LSB ∧
    patchLoadCount (modeSwitch amDemo).2 = 1 ∧
    (modeSwitch (modeSwitch amDemo).1).1.currentMode = USB ∧
    patchLoadCount (modeSwitch (modeSwitch amDemo).1).2 = 0 := by
  have h := modeSwitch_cycle amDemo (by decide) (by decide)
  exact ⟨by decide, by decide, h.1.1, h.1.2.2, h.2.1.1, h.2.1.2⟩

/-! ### Reachability invariants (C6, C10) -/

/-- The combined inductive invariant: an SSB mode implies the patch is
loaded, and an active BFO implies an SSB mode. -/
def Inv (s : RadioState) : Prop :=
  (s.currentMode = LSB ∨ s.currentMode = USB → s.ssbLoaded = true) ∧
  (s.bfoOn = true → s.currentMode = LSB ∨ s.currentMode = USB)

theorem useBand_cases (s : RadioState) :
    ((useBand s).1.currentMode = FM ∧ (useBand s).1.ssbLoaded = false ∧
       (useBand s).1.bfoOn = false) ∨
    ((useBand s).1.currentMode = s.currentMode ∧ (useBand s).1.ssbLoaded = true ∧
       (useBand s).1.bfoOn = s.bfoOn ∧ s.ssbLoaded = true) ∨
    ((useBand s).1.currentMode = AM ∧ (useBand s).1.ssbLoaded = false ∧
       (useBand s).1.bfoOn = false) := by
  unfold useBand
  by_cases h1 : (curBand s).bandType = FM_BAND_TYPE
  · left; simp [h1]
  · by_cases h2 : s.ssbLoaded
    · right; left; simp [h1, h2]
    · right; right; simp [h1, h2]

theorem inv_useBand (s : RadioState) (h : Inv s) : Inv (useBand s).1 := by
  rcases useBand_cases s with ⟨h1, h2, h3⟩ | ⟨h1, h2, h3, _⟩ | ⟨h1, h2, h3⟩
  · refine ⟨fun hm => ?_, fun hbo => ?_⟩
    · rw [h1] at hm; exact absurd hm (by decide)
    · rw [h3] at hbo; exact absurd hbo (by decide)
  · refine ⟨fun _ => h2, fun hbo => ?_⟩
    rw [h1]
    exact h.2 (by rw [h3] at hbo; exact hbo)
  · refine ⟨fun hm => ?_, fun hbo => ?_⟩
    · rw [h1] at hm; exact absurd hm (by decide)
    · rw [h3] at hbo; exact absurd hbo (by decide)

theorem modeSwitch_FM_eq (s : RadioState) (hm : s.currentMode = FM) :
    modeSwitch s = (s, []) := by
  simp only [modeSwitch, hm]
  norm_num

theorem modeSwitch_other_eq (s : RadioState) (h0 : s.currentMode ≠ FM)
    (h3 : s.currentMode ≠ AM) (h1 : s.currentMode ≠ LSB) (h2 : s.currentMode ≠ USB) :
    modeSwitch s = useBand
      { s with band := updateBandEntry s.band s.bandIdx s.currentFrequency s.currentStep } := by
  simp only [modeSwitch, if_pos h0, if_neg h3, if_neg h1, if_neg h2, List.nil_append]

theorem inv_modeSwitch (s : RadioState) (h : Inv s) : Inv (modeSwitch s).1 := by
  by_cases h0 : s.currentMode = FM
  · rw [modeSwitch_FM_eq s h0]; exact h
  by_cases hA : s.currentMode = AM
  · rw [modeSwitch_AM_eq s hA]
    exact inv_useBand (msAM s) ⟨fun _ => rfl, fun _ => Or.inl rfl⟩
  by_cases hL : s.currentMode = LSB
  · rw [modeSwitch_LSB_eq s hL]
    exact inv_useBand (msLSB s) ⟨fun _ => h.1 (Or.inl hL), fun _ => Or.inr rfl⟩
  by_cases hU : s.currentMode = USB
  · rw [modeSwitch_USB_eq s hU]
    refine inv_useBand (msUSB s) ⟨fun hm => ?_, fun hbo => ?_⟩
    · rcases hm with hx | hx <;> simp [msUSB, AM, LSB, USB] at hx
    · simp [msUSB] at hbo
  · rw [modeSwitch_other_eq s h0 hA hL hU]
    exact inv_useBand _ ⟨h.1, h.2⟩

theorem inv_step (s : RadioState) (e : Event) (h : Inv s) :
    Inv (stepEvent s e).1 := by
  cases e with
  | encoder cw f =>
      simp only [stepEvent]
      unfold encoderTurn
      split
      · exact ⟨h.1, h.2⟩
      · exact ⟨h.1, h.2⟩
  | bandwidthBtn =>
      simp only [stepEvent]
      unfold bandwidthPress
      split
      · exact ⟨h.1, h.2⟩
      · split
        · exact ⟨h.1, h.2⟩
        · exact ⟨h.1, h.2⟩
  | bandUpBtn =>
      simp only [stepEvent]
      exact inv_useBand _ ⟨h.1, h.2⟩
  | bandDownBtn =>
      simp only [stepEvent]
      exact inv_useBand _ ⟨h.1, h.2⟩
  | volUpBtn v => exact ⟨h.1, h.2⟩
  | volDownBtn v => exact ⟨h.1, h.2⟩
  | bfoBtn f =>
      simp only [stepEvent]
      unfold bfoPress
      split
      next hc => exact ⟨fun _ => h.1 hc, fun _ => hc⟩
      next =>
        split
        · exact ⟨h.1, h.2⟩
        · exact ⟨h.1, h.2⟩
  | agcBtn => exact ⟨h.1, h.2⟩
  | stepBtn =>
      simp only [stepEvent]
      unfold stepPress
      split
      · exact ⟨h.1, h.2⟩
      · split
        · exact ⟨h.1, h.2⟩
        · exact ⟨h.1, h.2⟩
  | modeBtn => exact inv_modeSwitch s h

theorem inv_reachable (s : RadioState) (h : Reachable s) : Inv s := by
  induction h with
  | init => exact ⟨by decide, by decide⟩
  | step s e hs ih => exact inv_step s e ih

/-- C6: in every reachable state, `currentMode ∈ {LSB, USB}` implies
`ssbLoaded = true`; moreover `useBand` forces the mode to AM whenever
the patch is not loaded on a non-FM band. -/
theorem ssb_mode_implies_patch_loaded (s : RadioState) (h : Reachable s)
    (hm : s.currentMode = LSB ∨ s.currentMode = USB) :
    s.ssbLoaded = true ∧
    ∀ t : RadioState, (curBand t).bandType ≠ FM_BAND_TYPE → t.ssbLoaded = false →
      (useBand t).1.currentMode = AM := by
  refine ⟨(inv_reachable s h).1 hm, fun t hb hl => (useBand_nossb_fields t hb hl).1⟩

/-- C10: in every reachable state, `bfoOn = true` implies
`currentMode ∈ {LSB, USB}`. -/
theorem bfo_implies_ssb_mode (s : RadioState) (h : Reachable s)
    (hb : s.bfoOn = true) :
    s.currentMode = LSB ∨ s.currentMode = USB :=
  (inv_reachable s h).2 hb

/-- The reachable state after one band-up press (to the LW band, mode
forced to AM) and one mode-switch press (to LSB with the patch loaded). -/
def lsbDemo : RadioState :=
  (stepEvent (stepEvent initState Event.bandUpBtn).1 Event.modeBtn).1

/-- The reachable state after additionally pressing the BFO switch in
LSB, turning BFO adjustment on. -/
def bfoDemo : RadioState := (stepEvent lsbDemo (Event.bfoBtn 0)).1

/-- Witness for C6 at the reachable state `lsbDemo`, whose mode is LSB. -/
theorem ssb_mode_implies_patch_loaded_witness :
    Reachable lsbDemo ∧ (lsbDemo.currentMode = LSB ∨ lsbDemo.currentMode = USB) ∧
    lsbDemo.ssbLoaded = true := by
  have hr : Reachable lsbDemo :=
    Reachable.step _ Event.modeBtn (Reachable.step _ Event.bandUpBtn Reachable.init)
  exact ⟨hr, Or.inl (by decide),
    (ssb_mode_implies_patch_loaded lsbDemo hr (Or.inl (by decide))).1⟩

/-- Witness for C10 at the reachable state `bfoDemo`, where BFO
adjustment is on. -/
theorem bfo_implies_ssb_mode_witness :
    Reachable bfoDemo ∧ bfoDemo.bfoOn = true ∧
    (bfoDemo.currentMode = LSB ∨ bfoDemo.currentMode = USB) := by
  have hr : Reachable bfoDemo :=
    Reachable.step _ (Event.bfoBtn 0)
      (Reachable.step _ Event.modeBtn (Reachable.step _ Event.bandUpBtn Reachable.init))
  exact ⟨hr, by decide, bfo_implies_ssb_mode bfoDemo hr (by decide)⟩

end SI4735
